import Mathlib

/-!
Verification of the room302-template scaffolding CLI (index.js).

The development shallowly embeds the script's functions over explicit
state records:

* file contents are Lean `String`s (JavaScript strings);
* `String.prototype.replace` with a string pattern (replace the first
  occurrence) is `jsReplaceFirst`; the two regex replacements used by
  `setupTailwind` are `jsReplaceAll` (for the global literal
  `/@nuxt\/ui/g`) and `collapseBlank` (for `/,\s*\n\s*\n/g`, implemented
  with the greedy backtracking semantics of JavaScript regexes);
* `package.json` is held parsed (`PkgJson`): a JavaScript object with a
  `name` field, a `license` field and a `dependencies` object whose keys
  are the list `dependencies` (keys of a JS object are distinct and
  ordered, `delete` removes a key);
* external processes (`shell.exec`) are represented by their exit codes,
  supplied as part of the environment, and by the command strings that
  the functions issue, recorded in a trace;
* `process.exit(1)` is modelled by stopping the straight-line model and
  recording `exit = some 1`;
* a thrown-and-caught exception inside `updateNuxtConfig` /
  `updatePackageJson` is modelled with `Except`: reading a missing
  `nuxt.config.ts` (`none`) or a missing/ill-formed `package.json`
  (`PkgFile.absent` / `PkgFile.malformed`) throws, and the two
  `fs.writeFileSync` calls at the end of `updateNuxtConfig` can be made
  to throw through the fault flags `pkgWriteFails` / `nuxtWriteFails`.

Braces and apostrophes inside string literals are written with the
escapes \x7b, \x7d and \x27; the strings are otherwise copied verbatim
from index.js.
-/

set_option autoImplicit false
set_option linter.unusedVariables false
set_option linter.unreachableTactic false
set_option linter.unusedTactic false

namespace Room302

/-! ### JavaScript string primitives -/

/-- `leadsWith p s` is true when the character list `p` is an initial
segment of `s`. -/
def leadsWith : List Char → List Char → Bool
  | [], _ => true
  | _ :: _, [] => false
  | p :: ps, c :: cs => p = c && leadsWith ps cs

/-- `hasSub pat s` is true when `pat` occurs as a contiguous segment of
`s` (JavaScript `s.includes(pat)`). -/
def hasSub (pat : List Char) : List Char → Bool
  | [] => pat.isEmpty
  | c :: cs => leadsWith pat (c :: cs) || hasSub pat cs

/-- Replace the first (leftmost) occurrence of `pat` by `rep`, the
semantics of JavaScript `s.replace(pat, rep)` with a string pattern. -/
def replFirst (pat rep : List Char) : List Char → List Char
  | [] => if pat.isEmpty then rep else []
  | c :: cs =>
    if leadsWith pat (c :: cs) then rep ++ (c :: cs).drop pat.length
    else c :: replFirst pat rep cs

/-- Replace every (non-overlapping, leftmost-first) occurrence of `pat`
by `rep`, the semantics of a JavaScript global replace with a literal
regex such as `/@nuxt\/ui/g`. -/
def replAll (pat rep : List Char) : List Char → List Char
  | [] => []
  | c :: cs =>
    if h : pat ≠ [] ∧ leadsWith pat (c :: cs) = true then
      rep ++ replAll pat rep ((c :: cs).drop pat.length)
    else
      c :: replAll pat rep cs
termination_by s => s.length
decreasing_by
  · have hp : 0 < pat.length := List.length_pos.mpr h.1
    simp only [List.length_drop, List.length_cons]
    omega
  · simp

/-- String wrapper for `hasSub`. -/
def containsStr (s pat : String) : Bool := hasSub pat.data s.data

/-- String wrapper for `replFirst`. -/
def jsReplaceFirst (s pat rep : String) : String :=
  ⟨replFirst pat.data rep.data s.data⟩

/-- String wrapper for `replAll`. -/
def jsReplaceAll (s pat rep : String) : String :=
  ⟨replAll pat.data rep.data s.data⟩

/-- If `pat` does not occur in `s`, replacing its first occurrence is
the identity. -/
theorem replFirst_of_not_hasSub (pat rep : List Char) :
    ∀ s : List Char, hasSub pat s = false → replFirst pat rep s = s := by
  intro s
  induction s with
  | nil =>
    intro h
    simp only [hasSub, List.isEmpty_iff] at h
    simp [replFirst, List.isEmpty_iff, h]
  | cons c cs ih =>
    intro h
    simp only [hasSub, Bool.or_eq_false_iff] at h
    simp [replFirst, h.1, ih h.2]

/-- String-level form of `replFirst_of_not_hasSub`. -/
theorem jsReplaceFirst_of_not_containsStr (s pat rep : String)
    (h : containsStr s pat = false) : jsReplaceFirst s pat rep = s := by
  unfold jsReplaceFirst
  rw [replFirst_of_not_hasSub pat.data rep.data s.data h]

/-! ### The regex `/,\s*\n\s*\n/g` of `setupTailwind`

JavaScript matches this pattern with greedy, backtracking stars: each
`\s*` first consumes as much whitespace as possible and gives characters
back until the rest of the pattern matches.  (`Char.isWhitespace` covers
the whitespace characters that occur in configuration files; the full
JavaScript `\s` class additionally holds exotic unicode spaces.) -/

/-- Length of the whitespace run at the head of `cs` (the most a `\s*`
can consume). -/
def wsLen (cs : List Char) : Nat := (cs.takeWhile Char.isWhitespace).length

/-- Largest index `k ≤ bound` with `cs[k]? = some '\n'` — the
backtracking positions for a literal `'\n'` after a greedy `\s*`. -/
def greedyNl (cs : List Char) : Nat → Option Nat
  | 0 => if cs[0]? = some '\n' then some 0 else none
  | k + 1 => if cs[k + 1]? = some '\n' then some (k + 1) else greedyNl cs k

/-- Number of characters consumed by `\s* '\n'` at the head of `cs`
(greedy star), or `none` when there is no match. -/
def matchWsNl (cs : List Char) : Option Nat :=
  (greedyNl cs (wsLen cs)).map (· + 1)

/-- Characters consumed by `\s* '\n' \s* '\n'` at the head of `rest`,
trying the first star's backtracking positions from `k` downward
(larger consumption first, as the greedy star does). -/
def tryNl (rest : List Char) : Nat → Option Nat
  | 0 =>
    if rest[0]? = some '\n' then (matchWsNl (rest.drop 1)).map (fun m => 1 + m)
    else none
  | k + 1 =>
    match (if rest[k + 1]? = some '\n' then
            (matchWsNl (rest.drop (k + 2))).map (fun m => k + 2 + m)
           else none) with
    | some r => some r
    | none => tryNl rest k

/-- Length of the match of `/,\s*\n\s*\n/` at the head of the list, or
`none` when the regex does not match there. -/
def matchBlankAt : List Char → Option Nat
  | ',' :: rest => (tryNl rest (wsLen rest)).map (fun m => 1 + m)
  | _ => none

theorem matchBlankAt_pos : ∀ {cs : List Char} {n : Nat},
    matchBlankAt cs = some n → 1 ≤ n := by
  intro cs n h
  unfold matchBlankAt at h
  split at h
  · cases htry : tryNl _ (wsLen _) with
    | none => rw [htry] at h; simp at h
    | some m => rw [htry] at h; simp at h; omega
  · simp at h

/-- Global replacement of `/,\s*\n\s*\n/` by `'\n'`: scan left to
right, replace each match and resume after it (JavaScript global-flag
semantics). -/
def collapseBlankL : List Char → List Char
  | [] => []
  | c :: cs =>
    match h : matchBlankAt (c :: cs) with
    | some n => '\n' :: collapseBlankL ((c :: cs).drop n)
    | none => c :: collapseBlankL cs
termination_by s => s.length
decreasing_by
  · have h1 : 1 ≤ n := matchBlankAt_pos h
    simp only [List.length_drop, List.length_cons]
    omega
  · simp

/-- String wrapper for `collapseBlankL`. -/
def collapseBlank (s : String) : String := ⟨collapseBlankL s.data⟩

/-- The transformation `setupTailwind` applies to an existing
`tailwind.config.js`:
`existingConfig.replace(/@nuxt\/ui/g, '').replace(/,\s*\n\s*\n/g, '\n')`. -/
def stripTailwindCfg (s : String) : String :=
  collapseBlank (jsReplaceAll s "@nuxt/ui" "")

/-! ### Data model of the config rewriter -/

/-- The parsed `package.json` object: the `name` field, the `license`
field, and the key list of the `dependencies` object (keys of a
JavaScript object are distinct; `delete obj[k]` removes a key; version
strings play no role in any claim and are not tracked). -/
structure PkgJson where
  name : String
  license : String
  dependencies : List String
  deriving Repr, DecidableEq

/-- The on-disk `package.json`: `absent` makes `fs.readFileSync` throw,
`malformed` makes `JSON.parse` throw, `stored p` parses to `p`. -/
inductive PkgFile where
  | absent
  | malformed
  | stored (p : PkgJson)
  deriving Repr, DecidableEq

/-- `JSON.parse(fs.readFileSync("package.json", "utf8"))`: `none` means
the read or the parse threw. -/
def readPkg : PkgFile → Option PkgJson
  | .stored p => some p
  | _ => none

/-- The files of the cloned project that the config rewriter touches.
`none` for a text file means the file does not exist (reading throws,
`fs.existsSync` is false). -/
structure FS where
  nuxtConfig : Option String
  packageJson : PkgFile
  tailwindConfig : Option String
  postcssConfig : Option String
  tailwindCss : Option String
  assetsCssDir : Bool
  deriving Repr, DecidableEq

/-- One run's mutable state: the files, the exit code the environment
gives `yarn add -D tailwindcss postcss autoprefixer`, two fault flags
that make the two `fs.writeFileSync` calls at the end of
`updateNuxtConfig` throw, and the `shell.echo` transcript. -/
structure World where
  fs : FS
  yarnAddCode : Int
  pkgWriteFails : Bool
  nuxtWriteFails : Bool
  echoes : List String
  deriving Repr, DecidableEq

/-- `shell.echo`. -/
def echoW (w : World) (s : String) : World :=
  { w with echoes := w.echoes ++ [s] }

/-- The `tailwind.config.js` that `setupTailwind` synthesizes when none
exists. -/
def defaultTailwindConfig : String :=
  "/\x2a\x2a @type \x7bimport(\x27tailwindcss\x27).Config\x7d \x2a/\nexport default \x7b\n  content: [\n    \"./components/\x2a\x2a/\x2a.\x7bjs,vue,ts\x7d\",\n    \"./layouts/\x2a\x2a/\x2a.vue\",\n    \"./pages/\x2a\x2a/\x2a.vue\",\n    \"./plugins/\x2a\x2a/\x2a.\x7bjs,ts\x7d\",\n    \"./app.vue\",\n  ],\n  theme: \x7b\n    extend: \x7b\x7d,\n  \x7d,\n  plugins: [],\n\x7d"

/-- The `postcss.config.js` that `setupTailwind` synthesizes when none
exists. -/
def defaultPostcssConfig : String :=
  "export default \x7b\n  plugins: \x7b\n    tailwindcss: \x7b\x7d,\n    autoprefixer: \x7b\x7d,\n  \x7d,\n\x7d"

/-- The `assets/css/tailwind.css` that `setupTailwind` synthesizes when
none exists. -/
def defaultTailwindCss : String :=
  "@tailwind base;\n@tailwind components;\n@tailwind utilities;"

/-- The style-sheet inclusion rewrite of `setupTailwind`: insert
`css: ['~/assets/css/tailwind.css'],` right after the opening
declaration (a first-occurrence string replace). -/
def injectCssLine (nc : String) : String :=
  jsReplaceFirst nc "export default defineNuxtConfig(\x7b"
    "export default defineNuxtConfig(\x7b\n  css: [\x27~/assets/css/tailwind.css\x27],"

/-- `setupTailwind` (index.js lines 200-278).  Install the toolchain
(early return when `yarn add` reports non-zero), rewrite or synthesize
`tailwind.config.js`, synthesize `postcss.config.js` and
`assets/css/tailwind.css` when missing (creating `assets/css` first),
then read `nuxt.config.ts` and, when it does not mention
`assets/css/tailwind.css`, write it back with the inclusion line
injected.  A throw (here: the `nuxt.config.ts` read) is caught by the
function's own catch block. -/
def setupTailwind (w : World) : World :=
  let w := echoW w "🎨 Setting up Tailwind CSS..."
  if w.yarnAddCode ≠ 0 then
    echoW w "🚨 Failed to install Tailwind dependencies"
  else
    let fs1 :=
      match w.fs.tailwindConfig with
      | some cfg => { w.fs with tailwindConfig := some (stripTailwindCfg cfg) }
      | none => { w.fs with tailwindConfig := some defaultTailwindConfig }
    let fs2 :=
      match fs1.postcssConfig with
      | none => { fs1 with postcssConfig := some defaultPostcssConfig }
      | some _ => fs1
    let fs3 :=
      match fs2.tailwindCss with
      | none =>
        let fsd := if fs2.assetsCssDir then fs2 else { fs2 with assetsCssDir := true }
        { fsd with tailwindCss := some defaultTailwindCss }
      | some _ => fs2
    match fs3.nuxtConfig with
    | none =>
      echoW { w with fs := fs3 } "🚨 Error occurred while setting up Tailwind:"
    | some nc =>
      let fs4 :=
        if containsStr nc "assets/css/tailwind.css" then fs3
        else { fs3 with nuxtConfig := some (injectCssLine nc) }
      echoW { w with fs := fs4 } "✅ Tailwind CSS setup complete!"

/-- `updateNuxtConfig` (index.js lines 280-315) before its catch block:
read `nuxt.config.ts`; branch on the UI-framework choice (the `none`
and `tailwind` branches drop the first occurrence of `'@nuxt/ui',` from
the in-memory copy, the `tailwind` branch then runs `setupTailwind`);
read and re-parse `package.json`, deleting `dependencies["@nuxt/ui"]`
for any choice other than `nuxt-ui`; finally write `package.json` and
then `nuxt.config.ts`.  `.error` carries the state at the moment a
throw escapes to the catch block. -/
def updateNuxtConfigE (uiFramework : String) (w : World) : Except World World :=
  let w := echoW w "🎨 Configuring UI framework..."
  match w.fs.nuxtConfig with
  | none => .error w
  | some nc0 =>
    let step :=
      if uiFramework = "none" then
        let w := echoW w "🧹 Removing UI frameworks for a clean slate..."
        (jsReplaceFirst nc0 "\x27@nuxt/ui\x27," "", w)
      else if uiFramework = "tailwind" then
        let w := echoW w "🎭 Setting up lightweight Tailwind configuration..."
        let nc := jsReplaceFirst nc0 "\x27@nuxt/ui\x27," ""
        (nc, setupTailwind w)
      else if uiFramework = "nuxt-ui" then
        (nc0, echoW w "✨ Keeping @nuxt/ui configuration...")
      else
        (nc0, w)
    let nc := step.1
    let w := step.2
    match readPkg w.fs.packageJson with
    | none => .error w
    | some p0 =>
      let p := if uiFramework ≠ "nuxt-ui" then
          { p0 with dependencies := p0.dependencies.erase "@nuxt/ui" }
        else p0
      if w.pkgWriteFails then .error w
      else
        let w := { w with fs := { w.fs with packageJson := .stored p } }
        if w.nuxtWriteFails then .error w
        else
          let w := { w with fs := { w.fs with nuxtConfig := some nc } }
          .ok (echoW w "✅ UI framework configuration complete!")

/-- `updateNuxtConfig` with its catch block: an escaping throw is logged
with the fixed message naming `nuxt.config.ts`. -/
def updateNuxtConfig (uiFramework : String) (w : World) : World :=
  match updateNuxtConfigE uiFramework w with
  | .ok w' => w'
  | .error w' => echoW w' "🚨 Error occurred while updating nuxt.config.ts:"

/-- `updatePackageJson` (index.js lines 183-198): read and parse
`package.json`, set `name` and `license`, delete the `@nuxt/ui`
dependency unless `useNuxtUi`, write the file back; a throw is caught
and logged with the message naming `package.json`. -/
def updatePackageJson (projectName license : String) (useNuxtUi : Bool)
    (w : World) : World :=
  let w := echoW w "📝 Updating package.json..."
  match readPkg w.fs.packageJson with
  | none => echoW w "🚨 Error occurred while updating package.json:"
  | some p0 =>
    let p1 := { p0 with name := projectName, license := license }
    let p2 := if useNuxtUi then p1
      else { p1 with dependencies := p1.dependencies.erase "@nuxt/ui" }
    if w.pkgWriteFails then
      echoW w "🚨 Error occurred while updating package.json:"
    else
      echoW { w with fs := { w.fs with packageJson := .stored p2 } }
        "✅ Package.json updated successfully!"

/-! ### `cloneTemplateRepo` (index.js lines 134-181) -/

/-- Environment of a `cloneTemplateRepo` run: the exit codes the two
`gh` invocations would report, and which relative paths exist inside
the cloned directory (`fs.existsSync`). -/
structure CloneEnv where
  repoViewCode : Int
  cloneCode : Int
  fileExists : String → Bool

/-- Observable effects of a `cloneTemplateRepo` run: the commands passed
to `shell.exec` in order, the `shell.echo` transcript, the arguments of
the `shell.cd` calls made, and the `process.exit` status if the run
terminated the process. -/
structure CloneResult where
  execs : List String
  echoes : List String
  cds : List String
  exit : Option Nat
  deriving Repr, DecidableEq

/-- The fixed file manifest the clone is checked against. -/
def essentialFiles : List String :=
  ["nuxt.config.ts", "package.json", "tailwind.config.js", "app.vue"]

/-- The clone command issued for a project name. -/
def cloneCmdStr (projectName : String) : String :=
  "gh repo clone room302studio/nuxt-template " ++ projectName

/-- The reachability-check command. -/
def repoViewCmdStr : String :=
  "gh repo view room302studio/nuxt-template --json name,html_url"

/-- `cloneTemplateRepo`: check the template repository is reachable
(non-zero exit terminates with status 1 before any clone), clone it
(non-zero exit terminates with status 1), `shell.cd` into the new
directory, and terminate with status 1 when any essential file is
missing, reporting the missing names. -/
def cloneTemplateRepo (projectName : String) (env : CloneEnv) : CloneResult :=
  let r : CloneResult :=
    { execs := [repoViewCmdStr]
      echoes := ["🚀 Let\x27s clone the template repo... 🎉"]
      cds := [], exit := none }
  if env.repoViewCode ≠ 0 then
    { r with
      echoes := r.echoes ++
        ["🚨 Template repository not accessible. Please check https://github.com/room302studio/nuxt-template"]
      exit := some 1 }
  else
    let r := { r with execs := r.execs ++ [cloneCmdStr projectName] }
    if env.cloneCode ≠ 0 then
      { r with echoes := r.echoes ++ ["🚨 Oops! Git clone failed 😿"], exit := some 1 }
    else
      let r := { r with cds := r.cds ++ [projectName] }
      let missingFiles := essentialFiles.filter (fun file => !env.fileExists file)
      if missingFiles ≠ [] then
        { r with
          echoes := r.echoes ++
            ["🚨 Template repository is missing essential files: " ++
              String.intercalate ", " missingFiles]
          exit := some 1 }
      else
        { r with echoes := r.echoes ++ ["🎉 Hooray! Successfully cloned the template repo 🚀"] }

/-! ### `commitAndPush` (index.js lines 359-380) -/

/-- Exit codes the environment gives the three git commands. -/
structure GitEnv where
  addCode : Int
  commitCode : Int
  pushCode : Int

/-- Observable effects of a `commitAndPush` run. -/
structure GitResult where
  execs : List String
  echoes : List String
  deriving Repr, DecidableEq

/-- `commitAndPush`: when the auto-commit flag is set, stage, commit and
push in order — each command is issued unconditionally (a failure only
echoes its own message and never suppresses the following command) —
otherwise do nothing at all. -/
def commitAndPush (autoCommitPush : Bool) (env : GitEnv) : GitResult :=
  if autoCommitPush then
    let r : GitResult := { execs := [], echoes := ["🌿 Preparing initial commit..."] }
    let r := { r with execs := r.execs ++ ["git add ."] }
    let r := if env.addCode ≠ 0 then
        { r with echoes := r.echoes ++ ["🚨 Oops! Git add failed 😿"] }
      else r
    let r := { r with execs := r.execs ++ ["git commit -m \"feat: begin project 🪴\""] }
    let r := if env.commitCode ≠ 0 then
        { r with echoes := r.echoes ++ ["🚨 Oops! Git commit failed 😿"] }
      else r
    let r := { r with echoes := r.echoes ++ ["🚀 Pushing to GitHub..."] }
    let r := { r with execs := r.execs ++ ["git push -u origin main"] }
    if env.pushCode ≠ 0 then
      { r with echoes := r.echoes ++ ["🚨 Oops! Git push failed 😿"] }
    else
      { r with echoes := r.echoes ++ ["✅ Changes pushed to GitHub successfully!"] }
  else
    { execs := [], echoes := [] }

/-! ### `createGitHubRepo` (index.js lines 333-357) -/

/-- A JavaScript value being interpolated into a template literal:
`undefined` (an answer `inquirer` never asked for), `null`, or a
string. -/
inductive JSVal where
  | undef
  | nullv
  | str (s : String)
  deriving Repr, DecidableEq

/-- JavaScript string coercion as performed by a template literal. -/
def jsToString : JSVal → String
  | .undef => "undefined"
  | .nullv => "null"
  | .str s => s

/-- The owner part computed by `createGitHubRepo`: empty for
`"personal"`, the fixed organization for `"room302studio"`, and the
interpolated custom name followed by `/` for anything else (no
validation of the scope or of the custom name's definedness). -/
def githubOrgName (githubOrg : String) (customGithubOrg : JSVal) : String :=
  if githubOrg = "personal" then ""
  else if githubOrg = "room302studio" then "room302studio/"
  else jsToString customGithubOrg ++ "/"

/-- The repository path `createGitHubRepo` passes to `gh repo create`:
`${githubOrgName}${projectName}`. -/
def createGitHubRepoPath (projectName githubOrg : String)
    (customGithubOrg : JSVal) : String :=
  githubOrgName githubOrg customGithubOrg ++ projectName

/-- Observable effects of a `createGitHubRepo` run. -/
structure RepoResult where
  echoes : List String
  cmd : String
  deriving Repr, DecidableEq

/-- `createGitHubRepo`: echo which branch was taken, then issue
`gh repo create <path> --<visibility> --source=<pwd>`; a non-zero exit
code only logs a failure. -/
def createGitHubRepo (projectName : String) (isRepoPublic : Bool)
    (githubOrg : String) (customGithubOrg : JSVal) (pwd : String)
    (createCode : Int) : RepoResult :=
  let repoVisibility := if isRepoPublic then "public" else "private"
  let branchEcho :=
    if githubOrg = "personal" then "🏠 Creating in your personal GitHub account..."
    else if githubOrg = "room302studio" then "🏢 Creating in Room302 Studio organization..."
    else "🏢 Creating in " ++ jsToString customGithubOrg ++ " organization..."
  let cmd := "gh repo create " ++ githubOrgName githubOrg customGithubOrg ++
    projectName ++ " --" ++ repoVisibility ++ " --source=" ++ pwd
  let resultEcho :=
    if createCode ≠ 0 then "🚨 Oops! Failed to create GitHub repository 😿"
    else "✅ GitHub repository created successfully!"
  { echoes := ["🏗️  Creating GitHub repository...", branchEcho, resultEcho]
    cmd := cmd }

/-! ### The working directory over a run of `main`

`main` (index.js lines 407-444) touches the process working directory
in exactly two statements: `shell.cd(projectName)` inside
`cloneTemplateRepo` (line 168, reached only after a successful clone)
and `shell.cd(projectName)` again at line 428; no other statement in
index.js invokes `shell.cd`.  shelljs `cd` into a directory that does
not exist logs an error and leaves the working directory unchanged. -/

/-- Which directory names exist under a given path (the path is the
list of directory names descended into from the starting directory). -/
structure CdEnv where
  hasSubdir : List String → String → Bool

/-- Working directory state: the current path and the trace of
successful changes (each entry is the path after that change). -/
structure CdState where
  cwd : List String
  cdTrace : List (List String)

/-- shelljs `cd`: enter the named directory when it exists under the
current one, otherwise log and stay. -/
def shellCd (env : CdEnv) (st : CdState) (dir : String) : CdState :=
  if env.hasSubdir st.cwd dir then
    { cwd := st.cwd ++ [dir], cdTrace := st.cdTrace ++ [st.cwd ++ [dir]] }
  else st

/-- The working-directory effect of a complete run of `main` (one that
reaches the end, so the clone succeeded and created the project
directory): the `shell.cd(projectName)` of `cloneTemplateRepo` followed
by the `shell.cd(projectName)` of `main` itself. -/
def mainCwdRun (projectName : String) (env : CdEnv) : CdState :=
  shellCd env (shellCd env { cwd := [], cdTrace := [] } projectName) projectName

/-- The key list of the `dependencies` object of an on-disk
`package.json` (empty when the file is unreadable). -/
def pkgDeps : PkgFile → List String
  | .stored p => p.dependencies
  | _ => []

/-! ## Claims -/

/-- C3: for every project name, visibility flag and custom organization
name, `createGitHubRepo` passes `gh repo create` the repository path
computed as the bare project name for the `"personal"` scope, as
`room302studio/` followed by the project name for the `"room302studio"`
scope, and as the custom name, `/`, and the project name for the custom
(`"other"`) scope. -/
theorem createGitHubRepo_path_spec (p : String) (v : Bool) (c pwd : String)
    (g : String) (code : Int) :
    (createGitHubRepo p v g (.str c) pwd code).cmd =
      "gh repo create " ++ createGitHubRepoPath p g (.str c) ++ " --" ++
        (if v then "public" else "private") ++ " --source=" ++ pwd ∧
    createGitHubRepoPath p "personal" (.str c) = p ∧
    createGitHubRepoPath p "room302studio" (.str c) = "room302studio/" ++ p ∧
    createGitHubRepoPath p "other" (.str c) = c ++ "/" ++ p := by
  refine ⟨?_, ?_, ?_, ?_⟩
  · simp [createGitHubRepo, createGitHubRepoPath, String.append_assoc]
  · simp [createGitHubRepoPath, githubOrgName]
  · simp [createGitHubRepoPath, githubOrgName]
  · simp [createGitHubRepoPath, githubOrgName, jsToString]

/-- C9: `createGitHubRepo` does not validate the ownership scope: any
scope other than the exact strings `"personal"` and `"room302studio"`
takes the custom-organization branch, and the custom name is
interpolated without a definedness check, so an `undefined` (resp.
`null`) custom name yields the literal path `undefined/<project-name>`
(resp. `null/<project-name>`). -/
theorem createGitHubRepo_no_scope_validation (g p : String) (c : JSVal)
    (h1 : g ≠ "personal") (h2 : g ≠ "room302studio") :
    githubOrgName g c = jsToString c ++ "/" ∧
    createGitHubRepoPath p g .undef = "undefined/" ++ p ∧
    createGitHubRepoPath p g .nullv = "null/" ++ p := by
  have hu : ("undefined" : String) ++ "/" = "undefined/" := rfl
  have hn : ("null" : String) ++ "/" = "null/" := rfl
  refine ⟨?_, ?_, ?_⟩
  · simp [githubOrgName, h1, h2]
  · simp [createGitHubRepoPath, githubOrgName, h1, h2, jsToString, hu,
      String.append_assoc]
  · simp [createGitHubRepoPath, githubOrgName, h1, h2, jsToString, hn,
      String.append_assoc]

/-- Witness for C9 at scope `"other"`, project `"demo"`. -/
theorem createGitHubRepo_no_scope_validation_witness :
    githubOrgName "other" (.str "acme") = jsToString (.str "acme") ++ "/" ∧
    createGitHubRepoPath "demo" "other" .undef = "undefined/" ++ "demo" ∧
    createGitHubRepoPath "demo" "other" .nullv = "null/" ++ "demo" :=
  createGitHubRepo_no_scope_validation "other" "demo" (.str "acme")
    (by decide) (by decide)

/-- C5: with the auto-commit flag false, `commitAndPush` runs no
external command at all (and prints nothing). -/
theorem commitAndPush_no_auto_no_ops (env : GitEnv) :
    commitAndPush false env = { execs := [], echoes := [] } := rfl

/-- C6: with the auto-commit flag true, `commitAndPush` issues exactly
the stage, commit and push commands, in that order, each once (so
nothing is retried); each failing command is reported with its own
message, the three failure messages are pairwise distinct, and a
failing stage does not suppress the commit (nor the push). -/
theorem commitAndPush_auto_contract (env : GitEnv) :
    (commitAndPush true env).execs =
      ["git add .", "git commit -m \"feat: begin project 🪴\"",
        "git push -u origin main"] ∧
    (env.addCode ≠ 0 →
      "🚨 Oops! Git add failed 😿" ∈ (commitAndPush true env).echoes) ∧
    (env.commitCode ≠ 0 →
      "🚨 Oops! Git commit failed 😿" ∈ (commitAndPush true env).echoes) ∧
    (env.pushCode ≠ 0 →
      "🚨 Oops! Git push failed 😿" ∈ (commitAndPush true env).echoes) ∧
    (("🚨 Oops! Git add failed 😿" : String) ≠ "🚨 Oops! Git commit failed 😿" ∧
      ("🚨 Oops! Git add failed 😿" : String) ≠ "🚨 Oops! Git push failed 😿" ∧
      ("🚨 Oops! Git commit failed 😿" : String) ≠ "🚨 Oops! Git push failed 😿") ∧
    (env.addCode ≠ 0 →
      "git commit -m \"feat: begin project 🪴\"" ∈ (commitAndPush true env).execs) := by
  unfold commitAndPush
  split_ifs <;> simp_all

/-- Witness for C6 with all three commands failing. -/
theorem commitAndPush_auto_contract_witness :
    (commitAndPush true ⟨1, 1, 1⟩).execs =
      ["git add .", "git commit -m \"feat: begin project 🪴\"",
        "git push -u origin main"] ∧
    "🚨 Oops! Git add failed 😿" ∈ (commitAndPush true ⟨1, 1, 1⟩).echoes ∧
    "🚨 Oops! Git commit failed 😿" ∈ (commitAndPush true ⟨1, 1, 1⟩).echoes ∧
    "🚨 Oops! Git push failed 😿" ∈ (commitAndPush true ⟨1, 1, 1⟩).echoes ∧
    "git commit -m \"feat: begin project 🪴\"" ∈ (commitAndPush true ⟨1, 1, 1⟩).execs :=
  have h := commitAndPush_auto_contract ⟨1, 1, 1⟩
  ⟨h.1, h.2.1 (by decide), h.2.2.1 (by decide), h.2.2.2.1 (by decide),
    h.2.2.2.2.2 (by decide)⟩

/-- C4: in `cloneTemplateRepo`, a non-zero reachability check
terminates the process with status 1 before the clone command is ever
issued; and a successful clone with any essential file absent
terminates with status 1 after a message listing exactly the missing
file names. -/
theorem cloneTemplateRepo_fatal_paths (p : String) (env : CloneEnv) :
    (env.repoViewCode ≠ 0 →
      (cloneTemplateRepo p env).exit = some 1 ∧
      cloneCmdStr p ∉ (cloneTemplateRepo p env).execs) ∧
    (env.repoViewCode = 0 → env.cloneCode = 0 →
      essentialFiles.filter (fun file => !env.fileExists file) ≠ [] →
      (cloneTemplateRepo p env).exit = some 1 ∧
      ("🚨 Template repository is missing essential files: " ++
          String.intercalate ", "
            (essentialFiles.filter (fun file => !env.fileExists file)))
        ∈ (cloneTemplateRepo p env).echoes) := by
  constructor
  · intro h
    have hne : cloneCmdStr p ≠ repoViewCmdStr := by
      intro hemm
      have := congrArg String.data hemm
      simp [cloneCmdStr, repoViewCmdStr, String.data_append] at this
    simp [cloneTemplateRepo, h, hne]
  · intro h1 h2 h3
    simp [cloneTemplateRepo, h1, h2, h3]

/-- Witness for C4: a failed reachability check, and a successful clone
with `app.vue` missing. -/
theorem cloneTemplateRepo_fatal_paths_witness :
    ((cloneTemplateRepo "demo" ⟨1, 0, fun _ => true⟩).exit = some 1 ∧
      cloneCmdStr "demo" ∉ (cloneTemplateRepo "demo" ⟨1, 0, fun _ => true⟩).execs) ∧
    ((cloneTemplateRepo "demo" ⟨0, 0, fun file => file != "app.vue"⟩).exit = some 1 ∧
      ("🚨 Template repository is missing essential files: " ++
          String.intercalate ", "
            (essentialFiles.filter
              (fun file => !(fun file => file != "app.vue") file)))
        ∈ (cloneTemplateRepo "demo" ⟨0, 0, fun file => file != "app.vue"⟩).echoes) :=
  ⟨(cloneTemplateRepo_fatal_paths "demo" ⟨1, 0, fun _ => true⟩).1 (by decide),
    (cloneTemplateRepo_fatal_paths "demo" ⟨0, 0, fun file => file != "app.vue"⟩).2
      (by decide) (by decide) (by decide)⟩

/-- C8 (counterexample): the claim "the working directory is changed
exactly once over a complete run of `main`" fails: `main` calls
`shell.cd(projectName)` a second time after `cloneTemplateRepo` already
did, so when the cloned template itself contains a directory named like
the project (here `"components"`), the directory is changed twice. -/
theorem main_cwd_changed_twice_cex :
    (mainCwdRun "components" ⟨fun _ _ => true⟩).cdTrace.length ≠ 1 ∧
    (mainCwdRun "components" ⟨fun _ _ => true⟩).cdTrace =
      [["components"], ["components", "components"]] := by
  constructor
  · intro h
    simp [mainCwdRun, shellCd] at h
  · simp [mainCwdRun, shellCd]

/-- C8 (amended): a complete run of `main` issues two `shell.cd`
calls, both with the project name; the working directory is changed
exactly once — into the newly cloned project — provided the cloned
project does not itself contain a subdirectory named after the project,
in which case the second `cd` fails and leaves the directory unchanged;
no other statement of the pipeline changes it. -/
theorem main_cwd_single_change (p : String) (env : CdEnv)
    (hclone : env.hasSubdir [] p = true)
    (hnest : env.hasSubdir [p] p = false) :
    (mainCwdRun p env).cdTrace = [[p]] ∧ (mainCwdRun p env).cwd = [p] := by
  simp [mainCwdRun, shellCd, hclone, hnest]

/-- Witness for C8 (amended): only the starting directory has a
subdirectory, named `"demo"`. -/
theorem main_cwd_single_change_witness :
    (mainCwdRun "demo" ⟨fun path _ => path.isEmpty⟩).cdTrace = [["demo"]] ∧
    (mainCwdRun "demo" ⟨fun path _ => path.isEmpty⟩).cwd = ["demo"] :=
  main_cwd_single_change "demo" ⟨fun path _ => path.isEmpty⟩ (by decide) (by decide)

/-! Facts about `setupTailwind` used when reasoning about
`updateNuxtConfig`: it never touches `package.json` and never changes
the environment fields. -/

theorem setupTailwind_pkg (w : World) :
    (setupTailwind w).fs.packageJson = w.fs.packageJson := by
  obtain ⟨⟨onc, opk, otw, opc, ocss, odir⟩, y, pw, nw, ech⟩ := w
  by_cases hy : y ≠ 0 <;>
    cases otw <;> cases opc <;> cases ocss <;> cases odir <;> cases onc <;>
      simp [setupTailwind, echoW, hy] <;> split <;> simp

theorem setupTailwind_pkgWriteFails (w : World) :
    (setupTailwind w).pkgWriteFails = w.pkgWriteFails := by
  obtain ⟨⟨onc, opk, otw, opc, ocss, odir⟩, y, pw, nw, ech⟩ := w
  by_cases hy : y ≠ 0 <;>
    cases otw <;> cases opc <;> cases ocss <;> cases odir <;> cases onc <;>
      simp [setupTailwind, echoW, hy] <;> split <;> simp

theorem setupTailwind_nuxtWriteFails (w : World) :
    (setupTailwind w).nuxtWriteFails = w.nuxtWriteFails := by
  obtain ⟨⟨onc, opk, otw, opc, ocss, odir⟩, y, pw, nw, ech⟩ := w
  by_cases hy : y ≠ 0 <;>
    cases otw <;> cases opc <;> cases ocss <;> cases odir <;> cases onc <;>
      simp [setupTailwind, echoW, hy] <;> split <;> simp

theorem setupTailwind_yarnAddCode (w : World) :
    (setupTailwind w).yarnAddCode = w.yarnAddCode := by
  obtain ⟨⟨onc, opk, otw, opc, ocss, odir⟩, y, pw, nw, ech⟩ := w
  by_cases hy : y ≠ 0 <;>
    cases otw <;> cases opc <;> cases ocss <;> cases odir <;> cases onc <;>
      simp [setupTailwind, echoW, hy] <;> split <;> simp

/-- A `PkgJson` does not survive deleting a dependency it holds. -/
theorem erase_dep_ne (p0 : PkgJson) (h : "@nuxt/ui" ∈ p0.dependencies) :
    ({ p0 with dependencies := p0.dependencies.erase "@nuxt/ui" } : PkgJson) ≠ p0 := by
  intro he
  have hd := congrArg PkgJson.dependencies he
  simp only at hd
  have hlen := List.length_erase_of_mem h
  rw [hd] at hlen
  have hp : 0 < p0.dependencies.length := List.length_pos_of_mem h
  omega

/-- C10: the two rewrites of `updateNuxtConfig` are not atomic: it
writes `package.json` before `nuxt.config.ts`, so when the
`nuxt.config.ts` write throws after the `package.json` write succeeded,
the error is logged but `package.json` keeps the freshly written value
— in particular, for any choice other than `nuxt-ui` with the
dependency initially present, it differs from its pre-step value; the
unwritten `nuxt.config.ts` keeps its prior content (for the non-
tailwind branches, the original content). -/
theorem updateNuxtConfig_partial_write (ui : String) (w : World)
    (p0 : PkgJson) (nc0 : String)
    (hnc : w.fs.nuxtConfig = some nc0)
    (hpkg : w.fs.packageJson = .stored p0)
    (hpw : w.pkgWriteFails = false)
    (hnw : w.nuxtWriteFails = true) :
    "🚨 Error occurred while updating nuxt.config.ts:" ∈ (updateNuxtConfig ui w).echoes ∧
    (updateNuxtConfig ui w).fs.packageJson =
      .stored (if ui = "nuxt-ui" then p0
        else { p0 with dependencies := p0.dependencies.erase "@nuxt/ui" }) ∧
    (ui ≠ "tailwind" → (updateNuxtConfig ui w).fs.nuxtConfig = w.fs.nuxtConfig) ∧
    (ui ≠ "nuxt-ui" → "@nuxt/ui" ∈ p0.dependencies →
      (updateNuxtConfig ui w).fs.packageJson ≠ .stored p0) := by
  by_cases h0 : ui = "none"
  · subst h0
    simp [updateNuxtConfig, updateNuxtConfigE, echoW, readPkg, hnc, hpkg, hpw, hnw]
    intro hmem he
    exact erase_dep_ne p0 hmem he
  by_cases h1 : ui = "tailwind"
  · subst h1
    simp [updateNuxtConfig, updateNuxtConfigE, echoW, readPkg, hnc, hpkg, hpw, hnw,
      setupTailwind_pkg, setupTailwind_pkgWriteFails, setupTailwind_nuxtWriteFails]
    intro hmem he
    exact erase_dep_ne p0 hmem he
  by_cases h2 : ui = "nuxt-ui"
  · subst h2
    simp [updateNuxtConfig, updateNuxtConfigE, echoW, readPkg, hnc, hpkg, hpw, hnw]
  · simp [updateNuxtConfig, updateNuxtConfigE, echoW, readPkg, hnc, hpkg, hpw, hnw,
      h0, h1, h2]
    intro hmem he
    exact erase_dep_ne p0 hmem he

/-- Witness for C10: choice `none`, readable files, failing
`nuxt.config.ts` write. -/
def wC10wit : World :=
  { fs := { nuxtConfig := some "modules: [\x27@nuxt/ui\x27,]"
            packageJson := .stored { name := "t", license := "mit", dependencies := ["@nuxt/ui"] }
            tailwindConfig := none, postcssConfig := none
            tailwindCss := none, assetsCssDir := false }
    yarnAddCode := 0, pkgWriteFails := false, nuxtWriteFails := true, echoes := [] }

/-- Witness for C10 at `wC10wit`. -/
theorem updateNuxtConfig_partial_write_witness :
    "🚨 Error occurred while updating nuxt.config.ts:" ∈ (updateNuxtConfig "none" wC10wit).echoes ∧
    (updateNuxtConfig "none" wC10wit).fs.packageJson =
      .stored (if ("none" : String) = "nuxt-ui"
        then { name := "t", license := "mit", dependencies := ["@nuxt/ui"] }
        else { name := "t", license := "mit",
               dependencies := (["@nuxt/ui"] : List String).erase "@nuxt/ui" }) ∧
    (("none" : String) ≠ "tailwind" →
      (updateNuxtConfig "none" wC10wit).fs.nuxtConfig = wC10wit.fs.nuxtConfig) ∧
    (("none" : String) ≠ "nuxt-ui" →
      "@nuxt/ui" ∈ (["@nuxt/ui"] : List String) →
      (updateNuxtConfig "none" wC10wit).fs.packageJson ≠
        .stored { name := "t", license := "mit", dependencies := ["@nuxt/ui"] }) :=
  updateNuxtConfig_partial_write "none" wC10wit
    { name := "t", license := "mit", dependencies := ["@nuxt/ui"] }
    "modules: [\x27@nuxt/ui\x27,]" rfl rfl rfl rfl

/-- World for the C7 counterexample: a well-formed `nuxt.config.ts`
next to a malformed `package.json`. -/
def wC7cex : World :=
  { fs := { nuxtConfig := some "export default defineNuxtConfig(\x7b\n  modules: [\x27@nuxt/ui\x27,],\n\x7d)"
            packageJson := .malformed
            tailwindConfig := none, postcssConfig := none
            tailwindCss := none, assetsCssDir := false }
    yarnAddCode := 0, pkgWriteFails := false, nuxtWriteFails := false, echoes := [] }

/-- C7 (counterexample): with a malformed `package.json` and the
`none` choice, the parse throws inside `updateNuxtConfig`, yet no
logged message mentions `package.json` — the catch block always blames
`nuxt.config.ts` — refuting "a message naming the specific file that
failed is logged". -/
theorem configRewriter_error_naming_cex :
    readPkg wC7cex.fs.packageJson = none ∧
    (updateNuxtConfigE "none" wC7cex).isOk = false ∧
    ((updateNuxtConfig "none" wC7cex).echoes.any
      (fun m => containsStr m "package.json")) = false := by
  decide

/-- C7 (amended): a read or parse failure of either file is caught and
logged, and nothing is written after the failure point: a failing
`nuxt.config.ts` read leaves every file untouched; a failing
`package.json` read inside `updateNuxtConfig` leaves every file
untouched for the non-`tailwind` choices (in the `tailwind` branch,
`setupTailwind` has already rewritten files by then), but the logged
message names `nuxt.config.ts`, not the failing file; only
`updatePackageJson`'s own catch names `package.json`. -/
theorem configRewriter_read_failure_aborts (ui pn lic : String) (b : Bool)
    (w : World) :
    (w.fs.nuxtConfig = none →
      (updateNuxtConfig ui w).fs = w.fs ∧
      "🚨 Error occurred while updating nuxt.config.ts:" ∈ (updateNuxtConfig ui w).echoes) ∧
    (readPkg w.fs.packageJson = none → ui ≠ "tailwind" →
      (updateNuxtConfig ui w).fs = w.fs ∧
      "🚨 Error occurred while updating nuxt.config.ts:" ∈ (updateNuxtConfig ui w).echoes) ∧
    (readPkg w.fs.packageJson = none →
      (updatePackageJson pn lic b w).fs = w.fs ∧
      "🚨 Error occurred while updating package.json:" ∈ (updatePackageJson pn lic b w).echoes ∧
      containsStr "🚨 Error occurred while updating package.json:" "package.json" = true) := by
  refine ⟨?_, ?_, ?_⟩
  · intro h
    simp [updateNuxtConfig, updateNuxtConfigE, echoW, h]
  · intro hpk htw
    cases honc : w.fs.nuxtConfig with
    | none => simp [updateNuxtConfig, updateNuxtConfigE, echoW, honc]
    | some nc0 =>
      by_cases h0 : ui = "none"
      · subst h0
        simp [updateNuxtConfig, updateNuxtConfigE, echoW, honc, hpk]
      by_cases h2 : ui = "nuxt-ui"
      · subst h2
        simp [updateNuxtConfig, updateNuxtConfigE, echoW, honc, hpk]
      · simp [updateNuxtConfig, updateNuxtConfigE, echoW, honc, hpk, h0, htw, h2]
  · intro hpk
    refine ⟨?_, ?_, by decide⟩
    · simp [updatePackageJson, echoW, hpk]
    · simp [updatePackageJson, echoW, hpk]

/-- World for the C7 witness, first part: `nuxt.config.ts` unreadable. -/
def wC7a : World :=
  { fs := { nuxtConfig := none
            packageJson := .stored { name := "t", license := "mit", dependencies := [] }
            tailwindConfig := none, postcssConfig := none
            tailwindCss := none, assetsCssDir := false }
    yarnAddCode := 0, pkgWriteFails := false, nuxtWriteFails := false, echoes := [] }

/-- World for the C7 witness, second part: `package.json` malformed. -/
def wC7b : World :=
  { fs := { nuxtConfig := some "export default defineNuxtConfig(\x7b\x7d)"
            packageJson := .malformed
            tailwindConfig := none, postcssConfig := none
            tailwindCss := none, assetsCssDir := false }
    yarnAddCode := 0, pkgWriteFails := false, nuxtWriteFails := false, echoes := [] }

/-- Witness for C7 (amended) at `wC7a` and `wC7b`. -/
theorem configRewriter_read_failure_aborts_witness :
    ((updateNuxtConfig "none" wC7a).fs = wC7a.fs ∧
      "🚨 Error occurred while updating nuxt.config.ts:" ∈ (updateNuxtConfig "none" wC7a).echoes) ∧
    ((updateNuxtConfig "none" wC7b).fs = wC7b.fs ∧
      "🚨 Error occurred while updating nuxt.config.ts:" ∈ (updateNuxtConfig "none" wC7b).echoes) ∧
    ((updatePackageJson "demo" "mit" true wC7b).fs = wC7b.fs ∧
      "🚨 Error occurred while updating package.json:" ∈ (updatePackageJson "demo" "mit" true wC7b).echoes ∧
      containsStr "🚨 Error occurred while updating package.json:" "package.json" = true) :=
  ⟨(configRewriter_read_failure_aborts "none" "demo" "mit" true wC7a).1 rfl,
    (configRewriter_read_failure_aborts "none" "demo" "mit" true wC7b).2.1 rfl
      (by decide),
    (configRewriter_read_failure_aborts "none" "demo" "mit" true wC7b).2.2 rfl⟩

/-- World for the C1 counterexample: a `nuxt.config.ts` that never
mentioned `@nuxt/ui`. -/
def wC1cex : World :=
  { fs := { nuxtConfig := some "export default defineNuxtConfig(\x7b modules: [] \x7d)"
            packageJson := .stored { name := "t", license := "mit", dependencies := ["@nuxt/ui"] }
            tailwindConfig := none, postcssConfig := none
            tailwindCss := none, assetsCssDir := false }
    yarnAddCode := 0, pkgWriteFails := false, nuxtWriteFails := false, echoes := [] }

/-- C1 (counterexample): the claim quantifies over every initial file
content; at `wC1cex` with choice `nuxt-ui` the run completes without
exception, yet the written `nuxt.config.ts` does not reference
`@nuxt/ui`, so "reference present iff the choice was nuxt-ui" fails in
the left-to-right-on-the-choice direction. -/
theorem updateNuxtConfig_nuxtui_iff_cex :
    (updateNuxtConfigE "nuxt-ui" wC1cex).isOk = true ∧
    containsStr (((updateNuxtConfig "nuxt-ui" wC1cex).fs.nuxtConfig).getD "")
      "@nuxt/ui" = false := by
  decide

/-- C1 (amended): for each of the three choices, provided the initial
files are shaped like the template — for `nuxt-ui` the config mentions
`@nuxt/ui` and the dependency entry is present, for the other two
choices removing the first occurrence of the literal `'@nuxt/ui',`
leaves no `@nuxt/ui` reference — `updateNuxtConfig` completes without
exception and afterwards the `@nuxt/ui` reference is in the written
`nuxt.config.ts` iff the choice was `nuxt-ui`, and the `@nuxt/ui`
dependency is in the written `package.json` iff the choice was
`nuxt-ui`. -/
theorem updateNuxtConfig_nuxtui_iff (ui : String) (w : World)
    (p0 : PkgJson) (nc0 : String)
    (hui : ui = "nuxt-ui" ∨ ui = "tailwind" ∨ ui = "none")
    (hpkg : w.fs.packageJson = .stored p0)
    (hnd : p0.dependencies.Nodup)
    (hnc : w.fs.nuxtConfig = some nc0)
    (hpw : w.pkgWriteFails = false)
    (hnw : w.nuxtWriteFails = false)
    (hpos : ui = "nuxt-ui" →
      containsStr nc0 "@nuxt/ui" = true ∧ "@nuxt/ui" ∈ p0.dependencies)
    (hneg : ui ≠ "nuxt-ui" →
      containsStr (jsReplaceFirst nc0 "\x27@nuxt/ui\x27," "") "@nuxt/ui" = false) :
    (updateNuxtConfigE ui w).isOk = true ∧
    (containsStr (((updateNuxtConfig ui w).fs.nuxtConfig).getD "") "@nuxt/ui" = true
      ↔ ui = "nuxt-ui") ∧
    ("@nuxt/ui" ∈ pkgDeps ((updateNuxtConfig ui w).fs.packageJson)
      ↔ ui = "nuxt-ui") := by
  rcases hui with h | h | h <;> subst h
  · obtain ⟨hc, hm⟩ := hpos rfl
    simp [updateNuxtConfig, updateNuxtConfigE, echoW, readPkg, pkgDeps,
      Except.isOk, Except.toBool, hpkg, hnc, hpw, hnw, hc, hm]
  · have hng := hneg (by decide)
    simp [updateNuxtConfig, updateNuxtConfigE, echoW, readPkg, pkgDeps,
      Except.isOk, Except.toBool, hpkg, hnc, hpw, hnw, hng, hnd.mem_erase_iff,
      setupTailwind_pkg, setupTailwind_pkgWriteFails, setupTailwind_nuxtWriteFails]
  · have hng := hneg (by decide)
    simp [updateNuxtConfig, updateNuxtConfigE, echoW, readPkg, pkgDeps,
      Except.isOk, Except.toBool, hpkg, hnc, hpw, hnw, hng, hnd.mem_erase_iff]

/-- World for the C1 witness: template-shaped initial files. -/
def wC1wit : World :=
  { fs := { nuxtConfig := some "export default defineNuxtConfig(\x7b\n  modules: [\n    \x27@nuxt/ui\x27,\n  ],\n\x7d)"
            packageJson := .stored { name := "nuxt-template", license := "mit", dependencies := ["@nuxt/ui", "nuxt"] }
            tailwindConfig := none, postcssConfig := none
            tailwindCss := none, assetsCssDir := false }
    yarnAddCode := 0, pkgWriteFails := false, nuxtWriteFails := false, echoes := [] }

/-- Witness for C1 (amended) at choice `none` on `wC1wit`. -/
theorem updateNuxtConfig_nuxtui_iff_witness :
    (updateNuxtConfigE "none" wC1wit).isOk = true ∧
    (containsStr (((updateNuxtConfig "none" wC1wit).fs.nuxtConfig).getD "") "@nuxt/ui" = true
      ↔ ("none" : String) = "nuxt-ui") ∧
    ("@nuxt/ui" ∈ pkgDeps ((updateNuxtConfig "none" wC1wit).fs.packageJson)
      ↔ ("none" : String) = "nuxt-ui") :=
  updateNuxtConfig_nuxtui_iff "none" wC1wit
    { name := "nuxt-template", license := "mit", dependencies := ["@nuxt/ui", "nuxt"] }
    "export default defineNuxtConfig(\x7b\n  modules: [\n    \x27@nuxt/ui\x27,\n  ],\n\x7d)"
    (Or.inr (Or.inr rfl)) rfl (by decide) rfl rfl rfl
    (fun h => absurd h (by decide)) (fun _ => by decide)

/-- World for the C2 counterexample: a `nuxt.config.ts` holding the
registration literal twice. -/
def wC2cex : World :=
  { fs := { nuxtConfig := some "\x27@nuxt/ui\x27,\x27@nuxt/ui\x27,x"
            packageJson := .stored { name := "t", license := "mit", dependencies := [] }
            tailwindConfig := none, postcssConfig := none
            tailwindCss := none, assetsCssDir := false }
    yarnAddCode := 0, pkgWriteFails := false, nuxtWriteFails := false, echoes := [] }

/-- C2 (counterexample): the rewrite drops only the first occurrence of
`'@nuxt/ui',`, so on an input holding the literal twice the first run
(which completes without exception) leaves one occurrence and the
second run removes it too: the second run's written `nuxt.config.ts`
differs from the first run's. -/
theorem updateNuxtConfig_idempotent_cex :
    (updateNuxtConfigE "none" wC2cex).isOk = true ∧
    (updateNuxtConfig "none" (updateNuxtConfig "none" wC2cex)).fs.nuxtConfig ≠
      (updateNuxtConfig "none" wC2cex).fs.nuxtConfig := by
  decide

/-- Fixed-point form of the idempotence of the config rewriter: on a
state whose `nuxt.config.ts` is free of the registration literal, whose
`package.json` lacks the `@nuxt/ui` dependency, and whose tailwind
artifacts (when that branch runs its file work, i.e. when `yarn add`
succeeds) exist with a strip-stable `tailwind.config.js`, a run of
`updateNuxtConfig` writes every file back with identical content. -/
theorem updateNuxtConfig_fixedpoint (ui : String) (w : World)
    (p1 : PkgJson) (nc1 : String)
    (hui : ui = "nuxt-ui" ∨ ui = "tailwind" ∨ ui = "none")
    (hpkg : w.fs.packageJson = .stored p1)
    (hdep : "@nuxt/ui" ∉ p1.dependencies)
    (hnc : w.fs.nuxtConfig = some nc1)
    (hpat : containsStr nc1 "\x27@nuxt/ui\x27," = false)
    (hpw : w.pkgWriteFails = false)
    (hnw : w.nuxtWriteFails = false)
    (htw : ui = "tailwind" → w.yarnAddCode = 0 →
      (w.fs.tailwindConfig.map stripTailwindCfg = w.fs.tailwindConfig ∧
        w.fs.tailwindConfig.isSome = true) ∧
      w.fs.postcssConfig.isSome = true ∧
      w.fs.tailwindCss.isSome = true) :
    (updateNuxtConfig ui w).fs = w.fs := by
  have hrep : jsReplaceFirst nc1 "\x27@nuxt/ui\x27," "" = nc1 :=
    jsReplaceFirst_of_not_containsStr _ _ _ hpat
  have her : p1.dependencies.erase "@nuxt/ui" = p1.dependencies :=
    List.erase_of_not_mem hdep
  obtain ⟨pn, pl, pd⟩ := p1
  obtain ⟨⟨onc, opk, otw, opc, ocss, odir⟩, y, pw, nw, ech⟩ := w
  simp only at hpkg hnc hpw hnw htw her
  subst hpkg hnc hpw hnw
  rcases hui with h | h | h <;> subst h
  · simp [updateNuxtConfig, updateNuxtConfigE, echoW, readPkg]
  · by_cases hy : y = 0
    · obtain ⟨⟨hmap, hsome⟩, hpc, hcss⟩ := htw rfl hy
      obtain ⟨t1, ht⟩ := Option.isSome_iff_exists.mp hsome
      obtain ⟨pc1, hpc1⟩ := Option.isSome_iff_exists.mp hpc
      obtain ⟨css1, hcss1⟩ := Option.isSome_iff_exists.mp hcss
      subst ht hpc1 hcss1 hy
      have hmap' : stripTailwindCfg t1 = t1 := by simpa using hmap
      by_cases hcs : containsStr nc1 "assets/css/tailwind.css" = true <;>
        simp [updateNuxtConfig, updateNuxtConfigE, setupTailwind, echoW, readPkg,
          hrep, her, hmap', hcs]
    · simp [updateNuxtConfig, updateNuxtConfigE, setupTailwind, echoW, readPkg,
        hrep, her, hy]
  · simp [updateNuxtConfig, updateNuxtConfigE, echoW, readPkg, hrep, her]

/-- C2 (amended): re-running the config rewriter on the files produced
by a first run writes identical content, provided the first run's
output no longer contains the registration literal `'@nuxt/ui',` or the
`@nuxt/ui` dependency entry and, for the `tailwind` choice with a
succeeding `yarn add`, its tailwind artifacts exist with the
`tailwind.config.js` a fixed point of the strip-and-collapse rewrite —
conditions a template-shaped input meets but an arbitrary input need
not (see the counterexample).  In particular the second run's written
`nuxt.config.ts` holds no duplicate of the style-sheet inclusion line
(the rewriter's final write discards the insertion either time). -/
theorem updateNuxtConfig_idempotent (ui : String) (w0 : World)
    (p1 : PkgJson) (nc1 : String)
    (hui : ui = "nuxt-ui" ∨ ui = "tailwind" ∨ ui = "none")
    (hp1 : (updateNuxtConfig ui w0).fs.packageJson = .stored p1)
    (hdep : "@nuxt/ui" ∉ p1.dependencies)
    (hnc1 : (updateNuxtConfig ui w0).fs.nuxtConfig = some nc1)
    (hpat : containsStr nc1 "\x27@nuxt/ui\x27," = false)
    (hpw : (updateNuxtConfig ui w0).pkgWriteFails = false)
    (hnw : (updateNuxtConfig ui w0).nuxtWriteFails = false)
    (htw : ui = "tailwind" → (updateNuxtConfig ui w0).yarnAddCode = 0 →
      ((updateNuxtConfig ui w0).fs.tailwindConfig.map stripTailwindCfg
          = (updateNuxtConfig ui w0).fs.tailwindConfig ∧
        (updateNuxtConfig ui w0).fs.tailwindConfig.isSome = true) ∧
      (updateNuxtConfig ui w0).fs.postcssConfig.isSome = true ∧
      (updateNuxtConfig ui w0).fs.tailwindCss.isSome = true) :
    (updateNuxtConfig ui (updateNuxtConfig ui w0)).fs =
      (updateNuxtConfig ui w0).fs :=
  updateNuxtConfig_fixedpoint ui (updateNuxtConfig ui w0) p1 nc1
    hui hp1 hdep hnc1 hpat hpw hnw htw

/-- World for the C2 witness: template-shaped initial files. -/
def wC2wit : World :=
  { fs := { nuxtConfig := some "export default defineNuxtConfig(\x7b\n  modules: [\n    \x27@nuxt/ui\x27,\n  ],\n\x7d)"
            packageJson := .stored { name := "nuxt-template", license := "mit", dependencies := ["@nuxt/ui", "nuxt"] }
            tailwindConfig := none, postcssConfig := none
            tailwindCss := none, assetsCssDir := false }
    yarnAddCode := 0, pkgWriteFails := false, nuxtWriteFails := false, echoes := [] }

/-- Witness for C2 (amended) at choice `none` on `wC2wit`. -/
theorem updateNuxtConfig_idempotent_witness :
    (updateNuxtConfig "none" (updateNuxtConfig "none" wC2wit)).fs =
      (updateNuxtConfig "none" wC2wit).fs :=
  updateNuxtConfig_idempotent "none" wC2wit
    { name := "nuxt-template", license := "mit", dependencies := ["nuxt"] }
    "export default defineNuxtConfig(\x7b\n  modules: [\n    \n  ],\n\x7d)"
    (Or.inr (Or.inr rfl)) (by decide) (by decide) (by decide) (by decide)
    (by decide) (by decide) (fun h => absurd h (by decide))

end Room302
